import Mathlib

/-!
Shallow embedding of `src/lib/browser.js` (abpcrawler).

The file models the two objects of the source:

* `Tabbed_Browser` — the admission gate: `n_requests`, `max_requests`,
  `available()`, `make_tab(leave_open)`.
* `Browser_Tab` — the per-load session: fields `leave_open`, `tab`,
  `listener`, `finally_f`, `catch_f`, `browser`, `state`, `error_code`,
  and the methods `in_initial_state`, `in_final_state`, `close`,
  `load(target).go(finally_f, catch_f)` (via `_show`) and `_progress`.

Host (Firefox) interactions are modelled as an emitted list of `Event`
values: each host call or callback invocation that the JS code performs
becomes one event in the output trace, so "the completion callback is
invoked exactly once" becomes "the trace holds exactly one
`finallyCall` event".  Host behaviour during setup (which call, if any,
throws) is an explicit `ShowOutcome` argument to `_show`; the JS
`try/catch` that absorbs the throw is the corresponding match branch.

JS `undefined` for the optional `leave_open` argument is modelled as
`Option Bool` with `none` for `undefined`; JS truthiness of that value
is `truthy`.  The JS field `this.browser` is unassigned before `_show`
runs, hence `Option Nat` with `none` initially.  Handles (tabs, panes)
are opaque and modelled as `Nat`.
-/

/-- JS truthiness of a possibly-undefined boolean: `undefined` and
`false` are falsy, `true` is truthy. -/
def truthy (v : Option Bool) : Bool :=
  v.getD false

/-- `Ci.nsIWebProgressListener.STATE_STOP` — host flag constant
(0x00000010) tested by `_progress` with a bitwise and. -/
def STATE_STOP : Nat := 16

/-- `Browser_Tab.STATE` from the source: CREATED = 0, LOADING = 1,
DISPLAYED = 2, ERROR = 3, CLOSED = 4. -/
inductive STATE where
  | CREATED
  | LOADING
  | DISPLAYED
  | ERROR
  | CLOSED
deriving DecidableEq, Repr

/-- The numeric value of each state, as in the source object literal. -/
def STATE.toNat : STATE → Nat
  | .CREATED => 0
  | .LOADING => 1
  | .DISPLAYED => 2
  | .ERROR => 3
  | .CLOSED => 4

/-- `Tabbed_Browser`: only the two counters matter to the claims; the
`window` and `gBrowser` fields are opaque host references. -/
structure Tabbed_Browser where
  n_requests : Int
  max_requests : Int
deriving DecidableEq, Repr

/-- `Tabbed_Browser.prototype.available`: `this.n_requests < this.max_requests`.
The JS method only reads fields, so it is a pure function here. -/
def Tabbed_Browser.available (g : Tabbed_Browser) : Bool :=
  g.n_requests < g.max_requests

/-- One observable host call or callback invocation performed by the
session code, in program order. -/
inductive Event where
  /-- `this.tabbed_browser.addTabsProgressListener( this.listener )` returned. -/
  | addProgressListener
  /-- `this.tabbed_browser.addTab( target )` returned the handle `tab`. -/
  | addTabCall (target : String) (tab : Nat)
  /-- `this.tabbed_browser.getBrowserForTab( this.tab )` returned `browser`. -/
  | getBrowserCall (tab : Nat) (browser : Nat)
  /-- `this.tabbed_browser.removeTabsProgressListener( this.listener )`. -/
  | removeProgressListener
  /-- `this.tabbed_browser.removeTab( this.tab )` on the handle `tab`. -/
  | removeTabCall (tab : Nat)
  /-- `Cu.reportError( ... )` — the diagnostic sink. -/
  | reportErrorCall
  /-- `this.catch_f( e )` — the failure callback. -/
  | catchCall
  /-- `this.finally_f( success )` — the completion callback. -/
  | finallyCall (success : Bool)
deriving DecidableEq, Repr

/-- `Browser_Tab`: the session state.  `listener`, `finally_f` and
`catch_f` are JS object/function references tested only for truthiness,
so they are modelled by presence booleans. -/
structure Browser_Tab where
  /-- `this.leave_open`; `none` is JS `undefined`. -/
  leave_open : Option Bool
  /-- `this.tab`; `none` is JS `null`. -/
  tab : Option Nat
  /-- `this.listener` non-null? -/
  listener : Bool
  /-- `this.finally_f` non-null? -/
  finally_f : Bool
  /-- `this.catch_f` non-null? -/
  catch_f : Bool
  /-- `this.browser`; `none` before `_show` assigns it. -/
  browser : Option Nat
  /-- `this.state`. -/
  state : STATE
  /-- `this.error_code`; set only on a failed stop notification. -/
  error_code : Option Nat
deriving DecidableEq, Repr

/-- The `Browser_Tab` constructor.  `passedArg = none` models a call
with fewer than two arguments (`arguments.length < 2`), in which case
`leave_open` defaults to `true`; `passedArg = some v` models an explicit
second argument whose JS value is `v` (`some none` = explicit
`undefined`). -/
def Browser_Tab.new (passedArg : Option (Option Bool)) : Browser_Tab :=
  { leave_open :=
      match passedArg with
      | some v => v
      | none => some true
    tab := none
    listener := false
    finally_f := false
    catch_f := false
    browser := none
    state := .CREATED
    error_code := none }

/-- `Tabbed_Browser.prototype.make_tab`: `new Browser_Tab( this, leave_open )`.
The constructor call always passes two arguments, even when `make_tab`
itself was called with none (then `leave_open` is `undefined`). -/
def Tabbed_Browser.make_tab (_g : Tabbed_Browser) (leave_open : Option Bool) :
    Browser_Tab :=
  Browser_Tab.new (some leave_open)

/-- `Browser_Tab.prototype.in_initial_state`: `state == CREATED`. -/
def Browser_Tab.in_initial_state (t : Browser_Tab) : Bool :=
  t.state = STATE.CREATED

/-- `Browser_Tab.prototype.in_final_state`: `state >= DISPLAYED`. -/
def Browser_Tab.in_final_state (t : Browser_Tab) : Bool :=
  STATE.DISPLAYED.toNat ≤ t.state.toNat

/-- `Browser_Tab.prototype.close`.  Returns the updated session and the
host calls performed.  On a session already CLOSED it returns at once;
otherwise it unregisters the listener when present, removes the tab
when present and `leave_open` is falsy, nulls both fields, and sets the
state to CLOSED. -/
def Browser_Tab.close (t : Browser_Tab) : Browser_Tab × List Event :=
  if t.state = STATE.CLOSED then
    (t, [])
  else
    let listenerEvents : List Event :=
      if t.listener then [.removeProgressListener] else []
    let tabEvents : List Event :=
      match t.tab with
      | some tb => if truthy t.leave_open then [] else [.removeTabCall tb]
      | none => []
    ({ t with listener := false, tab := none, state := .CLOSED },
     listenerEvents ++ tabEvents)

/-- Which host setup call, if any, throws during `_show`.  The source
performs, in order: assign `this.listener`, `addTabsProgressListener`,
`addTab`, `getBrowserForTab`; the `try/catch` absorbs a throw at any of
the three host calls. -/
inductive ShowOutcome where
  /-- every host call succeeds, returning the given handles. -/
  | ok (tab : Nat) (browser : Nat)
  /-- `addTabsProgressListener` throws (after `this.listener` was assigned). -/
  | throwAtAddListener
  /-- `addTab` throws (after the listener was registered). -/
  | throwAtAddTab
  /-- `getBrowserForTab` throws (after the tab was created). -/
  | throwAtGetBrowser (tab : Nat)
deriving DecidableEq, Repr

/-- The trace of the source catch block: `Cu.reportError`, then
`this.catch_f( e )` if non-null, then `this.finally_f( false )` if
non-null. -/
def catchBlockEvents (t : Browser_Tab) : List Event :=
  [.reportErrorCall]
    ++ (if t.catch_f then [.catchCall] else [])
    ++ (if t.finally_f then [.finallyCall false] else [])

/-- `Browser_Tab.prototype._show`.  The try block assigns
`this.listener`, registers it, creates the tab and resolves its browser
pane; the catch block sets `state = ERROR`, reports the exception and
invokes the callbacks.  Fields assigned before the throwing call keep
their new values. -/
def Browser_Tab._show (t : Browser_Tab) (target : String) (o : ShowOutcome) :
    Browser_Tab × List Event :=
  match o with
  | .ok tb br =>
      ({ t with listener := true, tab := some tb, browser := some br },
       [.addProgressListener, .addTabCall target tb, .getBrowserCall tb br])
  | .throwAtAddListener =>
      ({ t with listener := true, state := .ERROR },
       catchBlockEvents t)
  | .throwAtAddTab =>
      ({ t with listener := true, state := .ERROR },
       [.addProgressListener] ++ catchBlockEvents t)
  | .throwAtGetBrowser tb =>
      ({ t with listener := true, tab := some tb, state := .ERROR },
       [.addProgressListener, .addTabCall target tb] ++ catchBlockEvents t)

/-- The `go` operation of the action returned by
`Browser_Tab.prototype.load( target )`: store `finally_f` and `catch_f`
(their presence), then run `_show( target )`. -/
def Browser_Tab.go (t : Browser_Tab) (target : String)
    (finally_present catch_present : Bool) (o : ShowOutcome) :
    Browser_Tab × List Event :=
  Browser_Tab._show { t with finally_f := finally_present
                             catch_f := catch_present } target o

/-- The arguments a progress notification delivers:
`(browser, controller, request, state, stop_status)`.  Only the pane
handle, the state flags and the stop status are inspected by the
source. -/
structure ProgressEvent where
  browser : Nat
  state : Nat
  stop_status : Nat
deriving DecidableEq, Repr

/-- `Browser_Tab.prototype._progress`: drop the event when the session
is already in a final state, when the pane handle differs from
`this.browser`, or when the flags lack `STATE_STOP`; otherwise classify
by `stop_status == 0`, transition to DISPLAYED or ERROR (storing the
code on failure) and invoke `finally_f` if non-null. -/
def Browser_Tab._progress (t : Browser_Tab) (ev : ProgressEvent) :
    Browser_Tab × List Event :=
  if t.in_final_state then
    (t, [])
  else if t.browser ≠ some ev.browser then
    (t, [])
  else if Nat.land ev.state STATE_STOP = 0 then
    (t, [])
  else if ev.stop_status = 0 then
    ({ t with state := .DISPLAYED },
     if t.finally_f then [.finallyCall true] else [])
  else
    ({ t with state := .ERROR, error_code := some ev.stop_status },
     if t.finally_f then [.finallyCall false] else [])

/-- Deliver a sequence of progress notifications to a session,
threading the state and concatenating the emitted traces. -/
def deliver (t : Browser_Tab) : List ProgressEvent → Browser_Tab × List Event
  | [] => (t, [])
  | ev :: rest =>
      let r1 := t._progress ev
      let r2 := deliver r1.1 rest
      (r2.1, r1.2 ++ r2.2)

/-- Number of completion-callback invocations in a trace. -/
def countFinally (evs : List Event) : Nat :=
  evs.countP fun e =>
    match e with
    | .finallyCall _ => true
    | _ => false

/-- Number of diagnostic-sink invocations in a trace. -/
def countReport (evs : List Event) : Nat :=
  evs.countP fun e =>
    match e with
    | .reportErrorCall => true
    | _ => false

/-- Number of `removeTab` host calls in a trace. -/
def countRemoveTab (evs : List Event) : Nat :=
  evs.countP fun e =>
    match e with
    | .removeTabCall _ => true
    | _ => false

/-- Number of `addTabsProgressListener` host calls in a trace. -/
def countAddListener (evs : List Event) : Nat :=
  evs.countP fun e =>
    match e with
    | .addProgressListener => true
    | _ => false

/-- Number of `removeTabsProgressListener` host calls in a trace. -/
def countRemoveListener (evs : List Event) : Nat :=
  evs.countP fun e =>
    match e with
    | .removeProgressListener => true
    | _ => false

/-! ### Helper lemmas -/

/-- A session in a final state drops any progress notification. -/
theorem progress_of_final (t : Browser_Tab) (ev : ProgressEvent)
    (h : t.in_final_state = true) : t._progress ev = (t, []) := by
  simp [Browser_Tab._progress, h]

/-- One notification invokes the completion callback at most once. -/
theorem progress_finally_le_one (t : Browser_Tab) (ev : ProgressEvent) :
    countFinally (t._progress ev).2 ≤ 1 := by
  unfold Browser_Tab._progress
  split
  · simp [countFinally]
  · split
    · simp [countFinally]
    · split
      · simp [countFinally]
      · split
        · split <;> simp [countFinally]
        · split <;> simp [countFinally]

/-- A notification either emits nothing or leaves the session final. -/
theorem progress_emit_final (t : Browser_Tab) (ev : ProgressEvent) :
    (t._progress ev).2 = [] ∨ (t._progress ev).1.in_final_state = true := by
  unfold Browser_Tab._progress
  split
  · exact Or.inl rfl
  · split
    · exact Or.inl rfl
    · split
      · exact Or.inl rfl
      · split
        · right; simp [Browser_Tab.in_final_state, STATE.toNat]
        · right; simp [Browser_Tab.in_final_state, STATE.toNat]

/-- A session in a final state drops a whole sequence of notifications. -/
theorem deliver_of_final (t : Browser_Tab) (evs : List ProgressEvent)
    (h : t.in_final_state = true) : deliver t evs = (t, []) := by
  induction evs with
  | nil => rfl
  | cons ev rest ih =>
      simp [deliver, progress_of_final t ev h, ih]

/-- Across any sequence of notifications the completion callback is
invoked at most once. -/
theorem deliver_finally_le_one (t : Browser_Tab) (evs : List ProgressEvent) :
    countFinally (deliver t evs).2 ≤ 1 := by
  induction evs generalizing t with
  | nil => simp [deliver, countFinally]
  | cons ev rest ih =>
      rcases progress_emit_final t ev with h | h
      · simpa [deliver, countFinally, List.countP_append, h] using
          ih (t._progress ev).1
      · have h2 := deliver_of_final (t._progress ev).1 rest h
        simpa [deliver, countFinally, List.countP_append, h2] using
          progress_finally_le_one t ev

/-- After `close`, the session state is CLOSED. -/
theorem close_state (t : Browser_Tab) : (t.close).1.state = STATE.CLOSED := by
  unfold Browser_Tab.close
  split
  · assumption
  · rfl

/-- After `close`, the session is in a final state. -/
theorem close_final (t : Browser_Tab) : (t.close).1.in_final_state = true := by
  simp [Browser_Tab.in_final_state, close_state, STATE.toNat]

/-! ### Concrete sessions used by witnesses -/

/-- A session that has reached the terminal DISPLAYED state, with a
completion callback registered and a resolved pane handle. -/
def sessionDisplayed : Browser_Tab :=
  { leave_open := none, tab := some 7, listener := true, finally_f := true,
    catch_f := true, browser := some 3, state := .DISPLAYED,
    error_code := none }

/-- A session after a successful `go` (tab 7, pane 3) with both
callbacks registered, before any notification arrived. -/
def sessionStarted : Browser_Tab :=
  { leave_open := none, tab := some 7, listener := true, finally_f := true,
    catch_f := true, browser := some 3, state := .CREATED,
    error_code := none }

/-! ### Claims -/

/-- Claim C1: the completion callback is invoked at most once over any
sequence of delivered notifications, and once the session is in a
terminal state every later notification is dropped: no callback, no
state change. -/
theorem c1_callback_at_most_once (t : Browser_Tab) (evs : List ProgressEvent) :
    countFinally (deliver t evs).2 ≤ 1 ∧
      (t.in_final_state = true → deliver t evs = (t, [])) :=
  ⟨deliver_finally_le_one t evs, fun h => deliver_of_final t evs h⟩

/-- Witness for C1: a DISPLAYED session receives two further stop
events for its own pane and drops both. -/
theorem c1_witness :
    sessionDisplayed.in_final_state = true ∧
      deliver sessionDisplayed [⟨3, 16, 0⟩, ⟨3, 16, 2152398850⟩]
        = (sessionDisplayed, []) :=
  ⟨by decide,
   (c1_callback_at_most_once sessionDisplayed
      [⟨3, 16, 0⟩, ⟨3, 16, 2152398850⟩]).2 (by decide)⟩

/-- Claim C2: when `close()` runs before any terminal notification
(state neither DISPLAYED nor ERROR), the state becomes CLOSED and every
notification delivered afterwards — a matching success stop event
included — is dropped and invokes no callback. -/
theorem c2_close_suppresses_callbacks (t : Browser_Tab)
    (evs : List ProgressEvent)
    (_h : t.state ≠ STATE.DISPLAYED ∧ t.state ≠ STATE.ERROR) :
    (t.close).1.state = STATE.CLOSED ∧
      deliver (t.close).1 evs = ((t.close).1, []) ∧
      countFinally (deliver (t.close).1 evs).2 = 0 := by
  refine ⟨close_state t, deliver_of_final _ _ (close_final t), ?_⟩
  simp [deliver_of_final _ _ (close_final t), countFinally]

/-- Witness for C2: create, start, close, then deliver a matching
success stop event — no callback fires. -/
theorem c2_witness :
    (sessionStarted.state ≠ STATE.DISPLAYED ∧
        sessionStarted.state ≠ STATE.ERROR) ∧
      countFinally (deliver (sessionStarted.close).1 [⟨3, 16, 0⟩]).2 = 0 :=
  ⟨by decide,
   (c2_close_suppresses_callbacks sessionStarted [⟨3, 16, 0⟩]
      (by decide)).2.2⟩

/-- Counterexample to claim C3 as stated: a session made by
`make_tab` with no `leave_open` argument has `leave_open = undefined`
(not `true`), and after a successful start its `close()` does invoke
`removeTab`. -/
theorem c3_counterexample :
    (((Tabbed_Browser.mk 0 6).make_tab none).leave_open ≠ some true) ∧
      Event.removeTabCall 7 ∈
        (((((Tabbed_Browser.mk 0 6).make_tab none).go
            "https://example.test" true true (.ok 7 3)).1).close).2 := by
  decide

/-- Claim C3 (amended): a session made through `make_tab` destroys its
tab on close exactly when the `leave_open` argument it was given is not
truthy — so the no-argument (`undefined`) case and the explicit `false`
case invoke `removeTab` exactly once when a tab handle exists, while
explicit `true` never does; the constructor default `true` is reached
only when `make_tab` is bypassed and `Browser_Tab` is constructed with
fewer than two arguments. -/
theorem c3_close_destroys_unless_truthy_retain (g : Tabbed_Browser)
    (lo : Option Bool) (target : String) (tb br : Nat) (fp cp : Bool) :
    countRemoveTab (((((g.make_tab lo).go target fp cp (.ok tb br)).1).close).2)
        = (if truthy lo then 0 else 1) ∧
      (g.make_tab none).leave_open = none ∧
      (Browser_Tab.new none).leave_open = some true := by
  refine ⟨?_, rfl, rfl⟩
  simp only [Tabbed_Browser.make_tab, Browser_Tab.new, Browser_Tab.go,
    Browser_Tab._show, Browser_Tab.close, countRemoveTab]
  by_cases h : truthy lo = true <;>
    simp [h, List.countP_append, List.countP, List.countP.go]

/-- Claim C4: when `addTab` throws during `go` (with both callbacks
registered), the state becomes ERROR, the diagnostic sink is invoked
exactly once, and the trace is: listener registration, error report,
`catch_f(e)`, then `finally_f(false)` — nothing propagates to the
caller (the function is total and returns normally). -/
theorem c4_setup_failure_reports_and_fails (t : Browser_Tab)
    (target : String) :
    (t.go target true true .throwAtAddTab).1.state = STATE.ERROR ∧
      countReport (t.go target true true .throwAtAddTab).2 = 1 ∧
      (t.go target true true .throwAtAddTab).2
        = [.addProgressListener, .reportErrorCall, .catchCall,
           .finallyCall false] := by
  refine ⟨rfl, ?_, rfl⟩
  simp [Browser_Tab.go, Browser_Tab._show, catchBlockEvents, countReport,
    List.countP, List.countP.go]

/-- Claim C5: after a successful start, a stop notification for the
matching pane with the success status 0 moves the session to DISPLAYED
and invokes the completion callback exactly once with `true` (the start
itself emitted no completion callback). -/
theorem c5_success_stop_displays (g : Tabbed_Browser) (lo : Option Bool)
    (target : String) (tb br : Nat) (cp : Bool) (flags : Nat)
    (h : Nat.land flags STATE_STOP ≠ 0) :
    ((((g.make_tab lo).go target true cp (.ok tb br)).1)._progress
        ⟨br, flags, 0⟩).1.state = STATE.DISPLAYED ∧
      ((((g.make_tab lo).go target true cp (.ok tb br)).1)._progress
          ⟨br, flags, 0⟩).2 = [.finallyCall true] ∧
      countFinally (((g.make_tab lo).go target true cp (.ok tb br)).2) = 0 := by
  refine ⟨?_, ?_, ?_⟩ <;>
    simp [Tabbed_Browser.make_tab, Browser_Tab.new, Browser_Tab.go,
      Browser_Tab._show, Browser_Tab._progress, Browser_Tab.in_final_state,
      STATE.toNat, h, countFinally, List.countP, List.countP.go]

/-- Witness for C5: the scenario at pane 3, tab 7, stop flags 0x10. -/
theorem c5_witness :
    Nat.land 16 STATE_STOP ≠ 0 ∧
      (((((Tabbed_Browser.mk 0 6).make_tab (some true)).go
            "https://example.test" true true (.ok 7 3)).1)._progress
          ⟨3, 16, 0⟩).1.state = STATE.DISPLAYED :=
  ⟨by decide,
   (c5_success_stop_displays (Tabbed_Browser.mk 0 6) (some true)
      "https://example.test" 7 3 true 16 (by decide)).1⟩

/-- Claim C6: after a successful start, a stop notification for the
matching pane with a nonzero status code moves the session to ERROR,
stores the code in `error_code`, and invokes the completion callback
exactly once with `false`. -/
theorem c6_failure_stop_errors (g : Tabbed_Browser) (lo : Option Bool)
    (target : String) (tb br : Nat) (cp : Bool) (flags s : Nat)
    (h : Nat.land flags STATE_STOP ≠ 0) (hs : s ≠ 0) :
    ((((g.make_tab lo).go target true cp (.ok tb br)).1)._progress
        ⟨br, flags, s⟩).1.state = STATE.ERROR ∧
      ((((g.make_tab lo).go target true cp (.ok tb br)).1)._progress
          ⟨br, flags, s⟩).1.error_code = some s ∧
      ((((g.make_tab lo).go target true cp (.ok tb br)).1)._progress
          ⟨br, flags, s⟩).2 = [.finallyCall false] ∧
      countFinally (((g.make_tab lo).go target true cp (.ok tb br)).2) = 0 := by
  refine ⟨?_, ?_, ?_, ?_⟩ <;>
    simp [Tabbed_Browser.make_tab, Browser_Tab.new, Browser_Tab.go,
      Browser_Tab._show, Browser_Tab._progress, Browser_Tab.in_final_state,
      STATE.toNat, h, hs, countFinally, List.countP, List.countP.go]

/-- Witness for C6: the scenario with failure code 0x804B0002. -/
theorem c6_witness :
    Nat.land 16 STATE_STOP ≠ 0 ∧ (2152398850 : Nat) ≠ 0 ∧
      (((((Tabbed_Browser.mk 0 6).make_tab (some true)).go
            "https://example.test" true true (.ok 7 3)).1)._progress
          ⟨3, 16, 2152398850⟩).1.error_code = some 2152398850 :=
  ⟨by decide, by decide,
   (c6_failure_stop_errors (Tabbed_Browser.mk 0 6) (some true)
      "https://example.test" 7 3 true 16 2152398850 (by decide)
      (by decide)).2.1⟩

/-- Claim C7: a notification whose pane handle differs from the
session's resolved handle, or whose state flags lack the STOP bit,
leaves the session completely unchanged and emits nothing. -/
theorem c7_foreign_or_nonstop_ignored (t : Browser_Tab) (ev : ProgressEvent)
    (h : t.browser ≠ some ev.browser ∨ Nat.land ev.state STATE_STOP = 0) :
    t._progress ev = (t, []) := by
  by_cases hf : t.in_final_state = true
  · exact progress_of_final t ev hf
  · unfold Browser_Tab._progress
    rw [if_neg hf]
    rcases h with h | h
    · rw [if_pos h]
    · by_cases hb : t.browser ≠ some ev.browser
      · rw [if_pos hb]
      · rw [if_neg hb, if_pos h]

/-- Witness for C7: a foreign-pane failure stop event (pane 5, session
resolved to pane 3) is ignored by a started session. -/
theorem c7_witness :
    ((sessionStarted.browser ≠ some (5 : Nat)) ∨
        Nat.land 16 STATE_STOP = 0) ∧
      sessionStarted._progress ⟨5, 16, 2152398850⟩ = (sessionStarted, []) :=
  ⟨by decide,
   c7_foreign_or_nonstop_ignored sessionStarted ⟨5, 16, 2152398850⟩
     (by decide)⟩

/-- `close` on an already-CLOSED session returns it unchanged with no
host calls. -/
theorem close_of_closed (t : Browser_Tab) (h : t.state = STATE.CLOSED) :
    t.close = (t, []) := by
  unfold Browser_Tab.close
  rw [if_pos h]

/-- Claim C8: `close()` leaves the state CLOSED from every starting
state; a second `close()` is a no-op performing no host call; when the
session was not yet CLOSED, a present listener is unregistered and the
listener and tab fields are nulled. -/
theorem c8_close_idempotent (t : Browser_Tab) :
    (t.close).1.state = STATE.CLOSED ∧
      ((t.close).1).close = ((t.close).1, []) ∧
      (t.state ≠ STATE.CLOSED → t.listener = true →
        Event.removeProgressListener ∈ (t.close).2) ∧
      (t.state ≠ STATE.CLOSED →
        (t.close).1.listener = false ∧ (t.close).1.tab = none) := by
  refine ⟨close_state t, close_of_closed _ (close_state t), ?_, ?_⟩
  · intro hst hl
    unfold Browser_Tab.close
    rw [if_neg hst]
    simp [hl]
  · intro hst
    unfold Browser_Tab.close
    rw [if_neg hst]
    exact ⟨rfl, rfl⟩

/-- Witness for C8: closing a started session unregisters its listener,
and closing it again is a no-op. -/
theorem c8_witness :
    (sessionStarted.state ≠ STATE.CLOSED ∧ sessionStarted.listener = true) ∧
      Event.removeProgressListener ∈ (sessionStarted.close).2 ∧
      ((sessionStarted.close).1).close = ((sessionStarted.close).1, []) :=
  ⟨by decide,
   (c8_close_idempotent sessionStarted).2.2.1 (by decide) (by decide),
   (c8_close_idempotent sessionStarted).2.1⟩

/-- Claim C9: under the gate invariant 0 ≤ inFlight ≤ capacity,
`available()` is true exactly when inFlight < capacity, and false at
inFlight = capacity; it reads the two counters and is a pure
function. -/
theorem c9_available_iff_slot (g : Tabbed_Browser)
    (_h : 0 ≤ g.n_requests ∧ g.n_requests ≤ g.max_requests) :
    (g.available = true ↔ g.n_requests < g.max_requests) ∧
      (g.n_requests = g.max_requests → g.available = false) := by
  constructor
  · simp [Tabbed_Browser.available]
  · intro he
    simp [Tabbed_Browser.available, he]

/-- Witness for C9: the capacity-1 boundary with a full gate. -/
theorem c9_witness :
    ((0 : Int) ≤ 1 ∧ (1 : Int) ≤ 1) ∧ (1 : Int) = 1 ∧
      Tabbed_Browser.available ⟨1, 1⟩ = false :=
  ⟨by decide, by decide,
   (c9_available_iff_slot ⟨1, 1⟩ (by decide)).2 (by decide)⟩

/-- Claim C10: when `addTab` throws after the listener registration
succeeded, the error branch leaves the listener field non-null and the
host subscription registered (one `addTabsProgressListener`, no
`removeTabsProgressListener`); only a subsequent `close()` performs the
unregistration. -/
theorem c10_setup_failure_keeps_listener (t : Browser_Tab) (target : String)
    (fp cp : Bool) :
    (t.go target fp cp .throwAtAddTab).1.listener = true ∧
      countAddListener (t.go target fp cp .throwAtAddTab).2 = 1 ∧
      countRemoveListener (t.go target fp cp .throwAtAddTab).2 = 0 ∧
      Event.removeProgressListener ∈
        (((t.go target fp cp .throwAtAddTab).1).close).2 := by
  refine ⟨rfl, ?_, ?_, ?_⟩
  · cases fp <;> cases cp <;>
      simp [Browser_Tab.go, Browser_Tab._show, catchBlockEvents,
        countAddListener, List.countP_append, List.countP, List.countP.go]
  · cases fp <;> cases cp <;>
      simp [Browser_Tab.go, Browser_Tab._show, catchBlockEvents,
        countRemoveListener, List.countP_append, List.countP, List.countP.go]
  · simp [Browser_Tab.go, Browser_Tab._show, Browser_Tab.close]
